import Mathlib

/-!
Verification of the Meeting RAG system's answer synthesis and evaluation
components (`phase3_rag_system.py`, `accuracy_evaluation.py`).

The Python code is shallowly embedded: similarity scores and quality scores
become rationals, Python dictionaries become structures, the external LLM
call becomes an `Except String String` parameter (error message or generated
text), and operations that can raise (the harness loop, the generation
scorer's division) return `Except`.
-/

/-- A retrieved chunk as produced by `MeetingRAGSystem.search`: the payload
fields that the synthesizer and the scorers actually read. -/
structure Chunk where
  score : ℚ
  text : String
  type : String
  speaker : Option String
deriving DecidableEq

/-- A ground-truth query record from `_create_ground_truth_dataset`: the
query string, the three optional expectation sets (a `none` models the key
being absent from the dict), and the category label. -/
structure QuerySpec where
  query : String
  expected_types : Option (List String)
  expected_speakers : Option (List String)
  expected_keywords : Option (List String)
  category : String
deriving DecidableEq

/-- The dictionary returned by `MeetingRAGSystem.generate_answer`.
`retrieval_scores` is `[]` and `error` is `none` on the branches where the
Python dict omits those keys. -/
structure GeneratedAnswer where
  answer : String
  confidence : ℚ
  sources_used : ℕ
  retrieval_scores : List ℚ
  error : Option String
deriving DecidableEq

/-- The dictionary returned by `MeetingRAGSystem.search_and_generate`. -/
structure RagResult where
  query : String
  generated_answer : GeneratedAnswer
  retrieved_chunks : List Chunk
  total_chunks_found : ℕ
deriving DecidableEq

/-- Python's `str.lower`, character by character. -/
def lowerChars (s : String) : List Char :=
  s.toList.map Char.toLower

/-- Contiguous-sublist test on character lists (Python's `needle in hay`). -/
def hasSub (needle : List Char) : List Char → Bool
  | [] => needle.isEmpty
  | c :: rest => needle.isPrefixOf (c :: rest) || hasSub needle rest

/-- Case-insensitive substring test, Python's `keyword.lower() in text.lower()`. -/
def containsCI (text keyword : String) : Bool :=
  hasSub (lowerChars keyword) (lowerChars text)

/-- `MeetingRAGSystem.generate_answer`.  The external Mistral call is the
`llm` argument: `Except.ok` is the returned message content, `Except.error`
models any exception raised by the call (caught by the Python `except`). -/
def generate_answer (llm : Except String String) (_query : String)
    (retrieved_chunks : List Chunk) : GeneratedAnswer :=
  if retrieved_chunks.isEmpty then
    { answer := "I couldn't find any relevant information to answer your question.",
      confidence := 0,
      sources_used := 0,
      retrieval_scores := [],
      error := none }
  else
    match llm with
    | Except.ok generated_answer =>
      let top5 := retrieved_chunks.take 5
      let avg_score : ℚ :=
        ((top5.map Chunk.score).sum) / ((min retrieved_chunks.length 5 : ℕ) : ℚ)
      { answer := generated_answer,
        confidence := min (avg_score * 1.2) 1,
        sources_used := top5.length,
        retrieval_scores := top5.map Chunk.score,
        error := none }
    | Except.error e =>
      { answer := "Sorry, I encountered an error generating the response: " ++ e,
        confidence := 0,
        sources_used := retrieved_chunks.length,
        retrieval_scores := [],
        error := some e }

/-- `MeetingRAGSystem.search_and_generate`, with the retrieval result and
the LLM outcome supplied as arguments. -/
def search_and_generate (llm : Except String String) (query : String)
    (retrieved_chunks : List Chunk) : RagResult :=
  { query := query,
    generated_answer := generate_answer llm query retrieved_chunks,
    retrieved_chunks := retrieved_chunks,
    total_chunks_found := retrieved_chunks.length }

/-- Output record of `AccuracyEvaluator.evaluate_relevance`. -/
structure RelevanceMetrics where
  type_accuracy : ℚ
  keyword_relevance : ℚ
  speaker_accuracy : ℚ
  overall_relevance : ℚ
deriving DecidableEq

/-- Output record of `AccuracyEvaluator.evaluate_ranking_quality`. -/
structure RankingMetrics where
  score_monotonicity : ℚ
  score_distribution : ℚ
deriving DecidableEq

/-- Output record of `AccuracyEvaluator.evaluate_generation_quality`. -/
structure GenerationMetrics where
  confidence : ℚ
  length_score : ℚ
  keyword_coverage : ℚ
  source_utilization : ℚ
  overall_quality : ℚ
  answer_length : ℕ
deriving DecidableEq

/-- The type-accuracy branch of `evaluate_relevance` (non-empty results). -/
def type_accuracy_of (query_data : QuerySpec) (results : List Chunk) : ℚ :=
  match query_data.expected_types with
  | some ts => ((results.countP fun r => ts.contains r.type : ℕ) : ℚ) / results.length
  | none => 1

/-- The keyword-relevance branch of `evaluate_relevance`: each result counts
at most once (the Python inner loop breaks at the first matching keyword). -/
def keyword_relevance_of (query_data : QuerySpec) (results : List Chunk) : ℚ :=
  match query_data.expected_keywords with
  | some ks => ((results.countP fun r => ks.any fun k => containsCI r.text k : ℕ) : ℚ)
      / results.length
  | none => 1

/-- The speaker-accuracy branch of `evaluate_relevance`; a result whose
speaker is `None` never matches (Python `None in [...]` is false). -/
def speaker_accuracy_of (query_data : QuerySpec) (results : List Chunk) : ℚ :=
  match query_data.expected_speakers with
  | some sp => ((results.countP fun r =>
      match r.speaker with
      | some s => sp.contains s
      | none => false : ℕ) : ℚ) / results.length
  | none => 1

/-- `AccuracyEvaluator.evaluate_relevance`. -/
def evaluate_relevance (query_data : QuerySpec) (results : List Chunk) : RelevanceMetrics :=
  if results.isEmpty then
    { type_accuracy := 0, keyword_relevance := 0, speaker_accuracy := 0, overall_relevance := 0 }
  else
    let type_accuracy := type_accuracy_of query_data results
    let keyword_relevance := keyword_relevance_of query_data results
    let speaker_accuracy := speaker_accuracy_of query_data results
    { type_accuracy := type_accuracy,
      keyword_relevance := keyword_relevance,
      speaker_accuracy := speaker_accuracy,
      overall_relevance :=
        type_accuracy * 0.3 + keyword_relevance * 0.5 + speaker_accuracy * 0.2 }

/-- Python's `max(scores)` for the harness: fold of `max` over the list,
seeded with its head (`0` seed is unreachable for the non-empty lists the
code applies it to). -/
def pyMax (l : List ℚ) : ℚ := l.foldl max (l.headD 0)

/-- Python's `min(scores)`, same shape as `pyMax`. -/
def pyMin (l : List ℚ) : ℚ := l.foldl min (l.headD 0)

/-- `AccuracyEvaluator.evaluate_ranking_quality`. -/
def evaluate_ranking_quality (results : List Chunk) : RankingMetrics :=
  if results.length < 2 then
    { score_monotonicity := 1, score_distribution := 1 }
  else
    let scores := results.map Chunk.score
    let monotonic := (scores.zip scores.tail).all fun p => decide (p.2 ≤ p.1)
    let score_monotonicity : ℚ := if monotonic then 1 else 0
    let score_range := pyMax scores - pyMin scores
    let score_distribution : ℚ :=
      if 0 < pyMax scores then min (score_range / pyMax scores) 1 else 0
    { score_monotonicity := score_monotonicity, score_distribution := score_distribution }

/-- The `length_score` formula of `evaluate_generation_quality`. -/
def length_score (answer_length : ℕ) : ℚ :=
  if 50 ≤ answer_length ∧ answer_length ≤ 1000 then 1
  else max 0.3 (min ((answer_length : ℚ) / 500) 1)

/-- `AccuracyEvaluator.evaluate_generation_quality`.  The keyword-coverage
division is by the number of expected keywords, so a declared-but-empty
keyword list raises `ZeroDivisionError` in Python; that is modelled as
`Except.error`. -/
def evaluate_generation_quality (query_data : QuerySpec) (rag_result : RagResult) :
    Except String GenerationMetrics :=
  let generated_answer := rag_result.generated_answer.answer
  let confidence := rag_result.generated_answer.confidence
  let sources_used := rag_result.generated_answer.sources_used
  let answer_length := generated_answer.length
  let ls := length_score answer_length
  let source_utilization : ℚ := min ((sources_used : ℚ) / 3) 1
  let coverage : Except String ℚ :=
    match query_data.expected_keywords with
    | none => Except.ok 0
    | some ks =>
      if ks.length = 0 then Except.error "division by zero"
      else Except.ok (((ks.countP fun k => containsCI generated_answer k : ℕ) : ℚ) / ks.length)
  match coverage with
  | Except.error e => Except.error e
  | Except.ok keyword_coverage =>
    Except.ok
      { confidence := confidence,
        length_score := ls,
        keyword_coverage := keyword_coverage,
        source_utilization := source_utilization,
        overall_quality :=
          confidence * 0.4 + ls * 0.2 + keyword_coverage * 0.3 + source_utilization * 0.1,
        answer_length := answer_length }

/-- One entry of the harness's per-category result list. -/
structure QueryResult where
  query : String
  num_retrieved : ℕ
  relevance : RelevanceMetrics
  ranking : RankingMetrics
  generation : GenerationMetrics
  confidence : ℚ
  top_score : ℚ
deriving DecidableEq

/-- The per-query loop of `AccuracyEvaluator.run_accuracy_evaluation`.
`search` and `ragGen` stand for the retrieval and RAG calls on the external
system.  The loop body contains no `try/except`, so an exception raised
while scoring one query propagates and the remaining queries are not
processed — hence the `Except` result threading errors outward. -/
def run_accuracy_evaluation (search : String → List Chunk) (ragGen : String → RagResult) :
    List QuerySpec → Except String (List QueryResult)
  | [] => Except.ok []
  | query_data :: rest =>
    let retrieval_results := search query_data.query
    let rag_result := ragGen query_data.query
    let relevance_metrics := evaluate_relevance query_data retrieval_results
    let ranking_metrics := evaluate_ranking_quality retrieval_results
    match evaluate_generation_quality query_data rag_result with
    | Except.error e => Except.error e
    | Except.ok generation_metrics =>
      match run_accuracy_evaluation search ragGen rest with
      | Except.error e => Except.error e
      | Except.ok others =>
        Except.ok
          ({ query := query_data.query,
             num_retrieved := retrieval_results.length,
             relevance := relevance_metrics,
             ranking := ranking_metrics,
             generation := generation_metrics,
             confidence := rag_result.generated_answer.confidence,
             top_score :=
               match retrieval_results with
               | [] => 0
               | r :: _ => r.score } :: others)

/-! ### Sample values used by witnesses and counterexamples -/

/-- A degenerate generated answer (empty text, zero confidence). -/
def emptyGA : GeneratedAnswer :=
  { answer := "", confidence := 0, sources_used := 0, retrieval_scores := [], error := none }

/-- A degenerate RAG result wrapping `emptyGA`. -/
def emptyRag : RagResult :=
  { query := "", generated_answer := emptyGA, retrieved_chunks := [], total_chunks_found := 0 }

/-- A QuerySpec that declares no expectation set at all. -/
def specNoExpect : QuerySpec :=
  { query := "q", expected_types := none, expected_speakers := none,
    expected_keywords := none, category := "c" }

/-- A QuerySpec whose `expected_keywords` key is present but holds an empty
list — admissible per the data model (zero or more expectation sets). -/
def specEmptyKeywords : QuerySpec :=
  { query := "bad", expected_types := none, expected_speakers := none,
    expected_keywords := some [], category := "c" }

/-- The generation metrics the scorer yields on `specNoExpect`/`emptyRag`. -/
def emptyMetrics : GenerationMetrics :=
  { confidence := 0, length_score := 3/10, keyword_coverage := 0,
    source_utilization := 0, overall_quality := 3/50, answer_length := 0 }

/-- One retrieved chunk carrying a negative cosine-similarity score. -/
def negSingle : List Chunk :=
  [{ score := -1, text := "t", type := "minute", speaker := none }]

/-- The answer the synthesizer produces from `negSingle` on LLM success. -/
def negGA : GeneratedAnswer :=
  { answer := "", confidence := -(6/5), sources_used := 1,
    retrieval_scores := [-1], error := none }

/-- Two results, both with negative scores, correctly ordered. -/
def negPair : List Chunk :=
  [{ score := -1, text := "t", type := "minute", speaker := none },
   { score := -2, text := "t", type := "minute", speaker := none }]

/-- Two results with positive, descending scores. -/
def sampleRanked : List Chunk :=
  [{ score := 0.9, text := "a", type := "minute", speaker := none },
   { score := 0.5, text := "b", type := "minute", speaker := none }]

/-- A QuerySpec expecting the keyword "priority". -/
def specKeyword : QuerySpec :=
  { query := "q", expected_types := none, expected_speakers := none,
    expected_keywords := some ["priority"], category := "c" }

/-- A RAG result whose answer text contains "Priority" (different case). -/
def keywordRag : RagResult :=
  { query := "q",
    generated_answer :=
      { answer := "High Priority items", confidence := 1/2, sources_used := 2,
        retrieval_scores := [], error := none },
    retrieved_chunks := [], total_chunks_found := 0 }

/-- Two chunks, one whose text contains "Priority". -/
def keywordChunks : List Chunk :=
  [{ score := 0.9, text := "High Priority items", type := "minute", speaker := none },
   { score := 0.5, text := "nothing here", type := "minute", speaker := none }]

/-! ### Helper lemmas -/

/-- A `countP` fraction over a non-empty list lies in `[0, 1]`. -/
theorem count_div_mem {α : Type} (p : α → Bool) (l : List α) (h : l ≠ []) :
    0 ≤ ((l.countP p : ℕ) : ℚ) / l.length ∧ ((l.countP p : ℕ) : ℚ) / l.length ≤ 1 := by
  have hlen : 0 < (l.length : ℚ) := by exact_mod_cast List.length_pos.mpr h
  constructor
  · positivity
  · rw [div_le_one hlen]
    exact_mod_cast List.countP_le_length p

/-- `List.any` is the decision of the corresponding existential. -/
theorem any_eq_decide {α : Type} (l : List α) (p : α → Bool) :
    l.any p = decide (∃ x ∈ l, p x = true) := by
  rw [Bool.eq_iff_iff]
  simp [List.any_eq_true]

/-- The speaker-match test is the decision of its existential description. -/
theorem speaker_match_eq (sp : List String) (r : Chunk) :
    (match r.speaker with
      | some s => sp.contains s
      | none => false)
      = decide (∃ s, r.speaker = some s ∧ sp.contains s = true) := by
  rcases hr : r.speaker with _ | s <;> simp [hr]

/-- The zip-with-tail adjacency check equals the indexed adjacency property
(the spec's `score[i] ≥ score[i+1]` for every `i`). -/
theorem adj_all_iff : ∀ (l : List ℚ),
    (((l.zip l.tail).all fun p => decide (p.2 ≤ p.1)) = true ↔
      ∀ i (hi : i + 1 < l.length), l.get ⟨i + 1, hi⟩ ≤ l.get ⟨i, Nat.lt_of_succ_lt hi⟩)
  | [] => by simp
  | [a] => by simp
  | a :: b :: t => by
    have ih := adj_all_iff (b :: t)
    simp only [List.tail_cons, List.zip_cons_cons, List.all_cons, Bool.and_eq_true,
      decide_eq_true_eq] at ih ⊢
    constructor
    · rintro ⟨hab, hrest⟩ i hi
      match i with
      | 0 => exact hab
      | Nat.succ j =>
        exact ih.mp hrest j (by simpa [Nat.succ_lt_succ_iff] using hi)
    · intro H
      refine ⟨H 0 (by simp), ih.mpr ?_⟩
      intro j hj
      exact H (j + 1) (by simpa [Nat.succ_lt_succ_iff] using hj)

/-- The seed is bounded by the `max`-fold. -/
theorem seed_le_foldl_max : ∀ (l : List ℚ) (a : ℚ), a ≤ l.foldl max a
  | [], a => le_refl a
  | b :: t, a => le_trans (le_max_left a b) (seed_le_foldl_max t (max a b))

/-- The `min`-fold is bounded by the seed. -/
theorem foldl_min_le_seed : ∀ (l : List ℚ) (a : ℚ), l.foldl min a ≤ a
  | [], a => le_refl a
  | b :: t, a => le_trans (foldl_min_le_seed t (min a b)) (min_le_left a b)

/-- Every list element is bounded by the `max`-fold, whatever the seed. -/
theorem mem_le_foldl_max : ∀ (l : List ℚ) (a : ℚ), ∀ x ∈ l, x ≤ l.foldl max a
  | [], _, x, hx => absurd hx (List.not_mem_nil x)
  | b :: t, a, x, hx => by
    rw [List.foldl_cons]
    rcases List.mem_cons.mp hx with heq | hmem
    · rw [heq]
      exact le_trans (le_max_right a b) (seed_le_foldl_max t (max a b))
    · exact mem_le_foldl_max t (max a b) x hmem

/-- Every list element bounds the `min`-fold from above, whatever the seed. -/
theorem foldl_min_le_mem : ∀ (l : List ℚ) (a : ℚ), ∀ x ∈ l, l.foldl min a ≤ x
  | [], _, x, hx => absurd hx (List.not_mem_nil x)
  | b :: t, a, x, hx => by
    rw [List.foldl_cons]
    rcases List.mem_cons.mp hx with heq | hmem
    · rw [heq]
      exact le_trans (foldl_min_le_seed t (min a b)) (min_le_right a b)
    · exact foldl_min_le_mem t (min a b) x hmem

/-- The `max`-fold is the seed or an element of the list. -/
theorem foldl_max_choice : ∀ (l : List ℚ) (a : ℚ), l.foldl max a = a ∨ l.foldl max a ∈ l
  | [], a => Or.inl rfl
  | b :: t, a => by
    rw [List.foldl_cons]
    rcases foldl_max_choice t (max a b) with h | h
    · rcases max_choice a b with hm | hm
      · exact Or.inl (h.trans hm)
      · exact Or.inr (by rw [h, hm]; exact List.mem_cons_self b t)
    · exact Or.inr (List.mem_cons_of_mem b h)

/-- The `min`-fold is the seed or an element of the list. -/
theorem foldl_min_choice : ∀ (l : List ℚ) (a : ℚ), l.foldl min a = a ∨ l.foldl min a ∈ l
  | [], a => Or.inl rfl
  | b :: t, a => by
    rw [List.foldl_cons]
    rcases foldl_min_choice t (min a b) with h | h
    · rcases min_choice a b with hm | hm
      · exact Or.inl (h.trans hm)
      · exact Or.inr (by rw [h, hm]; exact List.mem_cons_self b t)
    · exact Or.inr (List.mem_cons_of_mem b h)

/-- `pyMax` of a non-empty list is attained. -/
theorem pyMax_mem (l : List ℚ) (h : l ≠ []) : pyMax l ∈ l := by
  cases l with
  | nil => exact absurd rfl h
  | cons c t =>
    unfold pyMax
    rcases foldl_max_choice (c :: t) ((c :: t).headD 0) with hc | hc
    · rw [hc]; exact List.mem_cons_self c t
    · exact hc

/-- `pyMin` of a non-empty list is attained. -/
theorem pyMin_mem (l : List ℚ) (h : l ≠ []) : pyMin l ∈ l := by
  cases l with
  | nil => exact absurd rfl h
  | cons c t =>
    unfold pyMin
    rcases foldl_min_choice (c :: t) ((c :: t).headD 0) with hc | hc
    · rw [hc]; exact List.mem_cons_self c t
    · exact hc

/-- `pyMax` bounds every element from above. -/
theorem le_pyMax (l : List ℚ) (x : ℚ) (hx : x ∈ l) : x ≤ pyMax l :=
  mem_le_foldl_max l (l.headD 0) x hx

/-- `pyMin` bounds every element from below. -/
theorem pyMin_le (l : List ℚ) (x : ℚ) (hx : x ∈ l) : pyMin l ≤ x :=
  foldl_min_le_mem l (l.headD 0) x hx

/-- `evaluate_relevance` on a non-empty result list, written out. -/
theorem evaluate_relevance_ne_nil (q : QuerySpec) (rs : List Chunk) (h : rs ≠ []) :
    evaluate_relevance q rs =
      { type_accuracy := type_accuracy_of q rs,
        keyword_relevance := keyword_relevance_of q rs,
        speaker_accuracy := speaker_accuracy_of q rs,
        overall_relevance :=
          type_accuracy_of q rs * 0.3 + keyword_relevance_of q rs * 0.5
            + speaker_accuracy_of q rs * 0.2 } := by
  cases rs with
  | nil => exact absurd rfl h
  | cons c t => rfl

/-- The type-accuracy sub-score lies in `[0, 1]`. -/
theorem type_accuracy_of_mem (q : QuerySpec) (rs : List Chunk) (h : rs ≠ []) :
    0 ≤ type_accuracy_of q rs ∧ type_accuracy_of q rs ≤ 1 := by
  unfold type_accuracy_of
  rcases q.expected_types with _ | ts
  · norm_num
  · exact count_div_mem _ _ h

/-- The keyword-relevance sub-score lies in `[0, 1]`. -/
theorem keyword_relevance_of_mem (q : QuerySpec) (rs : List Chunk) (h : rs ≠ []) :
    0 ≤ keyword_relevance_of q rs ∧ keyword_relevance_of q rs ≤ 1 := by
  unfold keyword_relevance_of
  rcases q.expected_keywords with _ | ks
  · norm_num
  · exact count_div_mem _ _ h

/-- The speaker-accuracy sub-score lies in `[0, 1]`. -/
theorem speaker_accuracy_of_mem (q : QuerySpec) (rs : List Chunk) (h : rs ≠ []) :
    0 ≤ speaker_accuracy_of q rs ∧ speaker_accuracy_of q rs ≤ 1 := by
  unfold speaker_accuracy_of
  rcases q.expected_speakers with _ | sp
  · norm_num
  · exact count_div_mem _ _ h

/-- The length score lies in `[0, 1]`. -/
theorem length_score_mem (n : ℕ) : 0 ≤ length_score n ∧ length_score n ≤ 1 := by
  unfold length_score
  split
  · norm_num
  · constructor
    · exact le_trans (by norm_num : (0:ℚ) ≤ 0.3) (le_max_left _ _)
    · exact max_le (by norm_num) (min_le_right _ _)

/-- Concrete evaluation of the generation scorer on the degenerate inputs. -/
theorem eval_emptyRag :
    evaluate_generation_quality specNoExpect emptyRag = Except.ok emptyMetrics := by
  norm_num [evaluate_generation_quality, specNoExpect, emptyRag, emptyGA, emptyMetrics,
    length_score, min_def, max_def]

/-! ### Claim theorems -/

/-- C8: for every query, when the retrieved result list is empty the Answer
Synthesizer returns the fixed fallback answer stating no relevant
information was found, with confidence 0.0 and sources_used 0, as a normal
value rather than an error. -/
theorem generate_answer_empty_fallback (llm : Except String String) (q : String) :
    generate_answer llm q [] =
      { answer := "I couldn't find any relevant information to answer your question.",
        confidence := 0, sources_used := 0, retrieval_scores := [], error := none } := rfl

/-- C4: for every query and non-empty retrieved result list, if the
generation call raises, the Answer Synthesizer returns (never re-raises) a
GeneratedAnswer whose text describes the failure, whose confidence is 0.0,
whose sources_used equals the full retrieved result count (not capped at 5),
and which carries an error descriptor. -/
theorem generate_answer_llm_failure (e q : String) (chunks : List Chunk)
    (h : chunks ≠ []) :
    generate_answer (Except.error e) q chunks =
      { answer := "Sorry, I encountered an error generating the response: " ++ e,
        confidence := 0, sources_used := chunks.length, retrieval_scores := [],
        error := some e } := by
  cases chunks with
  | nil => exact absurd rfl h
  | cons c t => rfl

/-- Witness for C4: six retrieved results, so sources_used is 6, above the
top-5 cap used on the success path. -/
theorem generate_answer_llm_failure_witness :
    generate_answer (Except.error "boom") "q"
        [{ score := 0.9, text := "a", type := "minute", speaker := none },
         { score := 0.8, text := "b", type := "minute", speaker := none },
         { score := 0.7, text := "c", type := "minute", speaker := none },
         { score := 0.6, text := "d", type := "minute", speaker := none },
         { score := 0.5, text := "e", type := "minute", speaker := none },
         { score := 0.4, text := "f", type := "minute", speaker := none }] =
      { answer := "Sorry, I encountered an error generating the response: boom",
        confidence := 0, sources_used := 6, retrieval_scores := [],
        error := some "boom" } :=
  generate_answer_llm_failure "boom" "q" _ (List.cons_ne_nil _ _)

/-- C1 (amended): on generation success with a non-empty result list, the
confidence equals min(avg · 1.2, 1.0) where avg is the average score of the
selected top-5 results; it never exceeds 1, and it is nonnegative whenever
all retrieved scores are nonnegative.  (The code does not clamp below zero,
so with negative similarity scores the confidence leaves [0, 1]; see the
counterexample.) -/
theorem generate_answer_confidence_spec (ans q : String) (chunks : List Chunk)
    (h : chunks ≠ []) :
    (generate_answer (Except.ok ans) q chunks).confidence
        = min ((((chunks.take 5).map Chunk.score).sum / ((chunks.take 5).length : ℚ)) * 1.2) 1
      ∧ (generate_answer (Except.ok ans) q chunks).confidence ≤ 1
      ∧ ((∀ c ∈ chunks, 0 ≤ c.score) →
          0 ≤ (generate_answer (Except.ok ans) q chunks).confidence) := by
  cases chunks with
  | nil => exact absurd rfl h
  | cons c t =>
    have hconf : (generate_answer (Except.ok ans) q (c :: t)).confidence
        = min ((((c :: t).take 5).map Chunk.score).sum
            / ((min (c :: t).length 5 : ℕ) : ℚ) * 1.2) 1 := rfl
    have hlen : ((c :: t).take 5).length = min (c :: t).length 5 := by
      rw [List.length_take, Nat.min_comm]
    refine ⟨?_, ?_, ?_⟩
    · rw [hconf, hlen]
    · rw [hconf]
      exact min_le_right _ _
    · intro hpos
      rw [hconf]
      have hsum : 0 ≤ (((c :: t).take 5).map Chunk.score).sum := by
        apply List.sum_nonneg
        intro x hx
        rcases List.mem_map.mp hx with ⟨ch, hch, hs⟩
        rw [← hs]
        exact hpos ch (List.take_subset 5 (c :: t) hch)
      have hdiv : 0 ≤ (((c :: t).take 5).map Chunk.score).sum
          / ((min (c :: t).length 5 : ℕ) : ℚ) :=
        div_nonneg hsum (by positivity)
      exact le_min (mul_nonneg hdiv (by norm_num)) zero_le_one

/-- Witness for C1: the spec's own example — a top score of 0.95 gives
min(0.95 · 1.2, 1.0), a confidence within [0, 1]. -/
theorem generate_answer_confidence_spec_witness :
    (generate_answer (Except.ok "a") "q"
        [{ score := 0.95, text := "t", type := "minute", speaker := none }]).confidence
        = min (((([({ score := 0.95, text := "t", type := "minute", speaker := none } :
                Chunk)].take 5).map Chunk.score).sum
            / (([({ score := 0.95, text := "t", type := "minute", speaker := none } :
                Chunk)].take 5).length : ℚ)) * 1.2) 1
      ∧ (generate_answer (Except.ok "a") "q"
          [{ score := 0.95, text := "t", type := "minute", speaker := none }]).confidence ≤ 1
      ∧ 0 ≤ (generate_answer (Except.ok "a") "q"
          [{ score := 0.95, text := "t", type := "minute", speaker := none }]).confidence := by
  have T := generate_answer_confidence_spec "a" "q"
    [{ score := 0.95, text := "t", type := "minute", speaker := none }]
    (List.cons_ne_nil _ _)
  refine ⟨T.1, T.2.1, T.2.2 ?_⟩
  intro c hc
  rw [List.mem_singleton] at hc
  rw [hc]
  norm_num

/-- Counterexample for C1: a single retrieved result with negative cosine
similarity (−1/2) makes the success-path confidence −3/5, strictly below 0 —
the claim's "lies in [0, 1] for every input score list" fails. -/
theorem generate_answer_confidence_negative_cex :
    (generate_answer (Except.ok "a") "q"
        [{ score := -(1/2), text := "t", type := "minute", speaker := none }]).confidence
      < 0 := by
  have h : (generate_answer (Except.ok "a") "q"
      [{ score := -(1/2), text := "t", type := "minute", speaker := none }]).confidence
      = -(3/5) := by
    norm_num [generate_answer]
  rw [h]
  norm_num

/-- C2 (amended): the per-query loop of `run_accuracy_evaluation` contains
no exception handling, so an unexpected exception raised while scoring one
QuerySpec propagates out of the run and the remaining QuerySpecs are not
processed.  (The claim said such failures are caught and recorded and the
run continues; the code has no try/except and no error list — see the
counterexample.) -/
theorem run_accuracy_evaluation_error_propagates (search : String → List Chunk)
    (ragGen : String → RagResult) (q : QuerySpec) (rest : List QuerySpec) (e : String)
    (h : evaluate_generation_quality q (ragGen q.query) = Except.error e) :
    run_accuracy_evaluation search ragGen (q :: rest) = Except.error e := by
  simp only [run_accuracy_evaluation, h]

/-- Witness for C2 (amended): a one-element QuerySpec set whose only entry
raises the keyword-coverage division-by-zero; the run itself errors. -/
theorem run_accuracy_evaluation_error_propagates_witness :
    run_accuracy_evaluation (fun _ => []) (fun _ => emptyRag) [specEmptyKeywords]
      = Except.error "division by zero" :=
  run_accuracy_evaluation_error_propagates (fun _ => []) (fun _ => emptyRag)
    specEmptyKeywords [] "division by zero" rfl

/-- Counterexample for C2: a two-element labeled set where scoring the
second QuerySpec raises; the exception escapes the whole run (the result is
an error, not a report), so the failure is neither isolated nor recorded. -/
theorem run_accuracy_evaluation_cex :
    run_accuracy_evaluation (fun _ => []) (fun _ => emptyRag)
      [specNoExpect, specEmptyKeywords] = Except.error "division by zero" := rfl

/-- C10: a QuerySpec that declares `expected_keywords` as an empty list
makes the Generation Scorer's keyword-coverage computation divide by the
number of expected keywords — zero — so it raises a division-by-zero error
instead of returning a score. -/
theorem evaluate_generation_quality_div_by_zero :
    evaluate_generation_quality specEmptyKeywords emptyRag
      = Except.error "division by zero" := rfl

/-- C3 (amended): the Generation Scorer's length_score is 1.0 for answer
lengths in [50, 1000] and max(0.3, min(length/500, 1.0)) otherwise; at 50
and 1000 characters it equals 1.0, at 49 characters it is strictly below
1.0 but at least 0.3, and at 1001 characters it equals 1.0 (the "otherwise"
formula evaluates to 1.0 for every length above 1000, so long answers are
not penalized — the claimed strict penalty at 1001 fails; see the
counterexample). -/
theorem length_score_spec :
    (∀ q rag g, evaluate_generation_quality q rag = Except.ok g →
        g.length_score = length_score rag.generated_answer.answer.length)
    ∧ (∀ n : ℕ, 50 ≤ n → n ≤ 1000 → length_score n = 1)
    ∧ (∀ n : ℕ, ¬(50 ≤ n ∧ n ≤ 1000) →
        length_score n = max 0.3 (min ((n : ℚ) / 500) 1))
    ∧ length_score 50 = 1 ∧ length_score 1000 = 1
    ∧ length_score 49 < 1 ∧ 0.3 ≤ length_score 49
    ∧ length_score 1001 = 1 := by
  refine ⟨?_, ?_, ?_, ?_, ?_, ?_, ?_, ?_⟩
  · intro q rag g h
    simp only [evaluate_generation_quality] at h
    rcases hk : q.expected_keywords with _ | ks
    · rw [hk] at h
      simp only [Except.ok.injEq] at h
      rw [← h]
    · rw [hk] at h
      dsimp only at h
      by_cases hz : ks.length = 0
      · rw [if_pos hz] at h
        simp at h
      · rw [if_neg hz] at h
        simp only [Except.ok.injEq] at h
        rw [← h]
  · intro n h1 h2
    unfold length_score
    rw [if_pos ⟨h1, h2⟩]
  · intro n h
    unfold length_score
    rw [if_neg h]
  · norm_num [length_score]
  · norm_num [length_score]
  · norm_num [length_score, min_def, max_def]
  · norm_num [length_score, min_def, max_def]
  · norm_num [length_score, min_def, max_def]

/-- Witness for C3: the scorer's length_score field on a concrete run, the
in-range formula at 500, and the out-of-range formula at 30. -/
theorem length_score_spec_witness :
    emptyMetrics.length_score = length_score emptyRag.generated_answer.answer.length
    ∧ length_score 500 = 1
    ∧ length_score 30 = max 0.3 (min ((30 : ℚ) / 500) 1) :=
  ⟨length_score_spec.1 specNoExpect emptyRag emptyMetrics eval_emptyRag,
   length_score_spec.2.1 500 (by norm_num) (by norm_num),
   length_score_spec.2.2.1 30 (by norm_num)⟩

/-- Counterexample for C3: on an answer of exactly 1001 characters, the
scorer's length_score is 1.0, not strictly less than 1.0 as claimed. -/
theorem length_score_1001_cex :
    (evaluate_generation_quality specNoExpect
        { query := "",
          generated_answer :=
            { answer := String.mk (List.replicate 1001 'x'), confidence := 0,
              sources_used := 0, retrieval_scores := [], error := none },
          retrieved_chunks := [], total_chunks_found := 0 }).map
        GenerationMetrics.length_score
      = Except.ok 1
    ∧ ¬ ((1 : ℚ) < 1) := by
  constructor
  · have h : (String.mk (List.replicate 1001 'x')).length = 1001 := by
      rw [String.length_mk, List.length_replicate]
    norm_num [evaluate_generation_quality, specNoExpect, length_score, Except.map,
      min_def, max_def, h]
  · norm_num

/-- C5: the Relevance Scorer returns all four scores 0.0 on an empty result
list; otherwise each sub-score is the stated fraction of matching results
(keyword relevance counting each result at most once, under case-insensitive
substring match), equals 1.0 when the corresponding expectation is not
declared, and overall_relevance = 0.3·type_accuracy + 0.5·keyword_relevance
+ 0.2·speaker_accuracy. -/
theorem evaluate_relevance_spec :
    (∀ q, evaluate_relevance q [] =
      { type_accuracy := 0, keyword_relevance := 0, speaker_accuracy := 0,
        overall_relevance := 0 })
    ∧ (∀ q rs, rs ≠ [] → (evaluate_relevance q rs).overall_relevance
        = 0.3 * (evaluate_relevance q rs).type_accuracy
          + 0.5 * (evaluate_relevance q rs).keyword_relevance
          + 0.2 * (evaluate_relevance q rs).speaker_accuracy)
    ∧ (∀ q rs, rs ≠ [] → q.expected_types = none →
        (evaluate_relevance q rs).type_accuracy = 1)
    ∧ (∀ q rs, rs ≠ [] → q.expected_keywords = none →
        (evaluate_relevance q rs).keyword_relevance = 1)
    ∧ (∀ q rs, rs ≠ [] → q.expected_speakers = none →
        (evaluate_relevance q rs).speaker_accuracy = 1)
    ∧ (∀ q rs ts, rs ≠ [] → q.expected_types = some ts →
        (evaluate_relevance q rs).type_accuracy
          = ((rs.countP fun r => ts.contains r.type : ℕ) : ℚ) / rs.length)
    ∧ (∀ q rs ks, rs ≠ [] → q.expected_keywords = some ks →
        (evaluate_relevance q rs).keyword_relevance
          = ((rs.countP fun r => decide (∃ k ∈ ks, containsCI r.text k = true) : ℕ) : ℚ)
            / rs.length)
    ∧ (∀ q rs sp, rs ≠ [] → q.expected_speakers = some sp →
        (evaluate_relevance q rs).speaker_accuracy
          = ((rs.countP fun r => decide (∃ s, r.speaker = some s ∧ sp.contains s = true) : ℕ) : ℚ)
            / rs.length) := by
  refine ⟨fun q => rfl, ?_, ?_, ?_, ?_, ?_, ?_, ?_⟩
  · intro q rs h
    rw [evaluate_relevance_ne_nil q rs h]
    dsimp only
    ring
  · intro q rs h hn
    rw [evaluate_relevance_ne_nil q rs h]
    dsimp only
    simp [type_accuracy_of, hn]
  · intro q rs h hn
    rw [evaluate_relevance_ne_nil q rs h]
    dsimp only
    simp [keyword_relevance_of, hn]
  · intro q rs h hn
    rw [evaluate_relevance_ne_nil q rs h]
    dsimp only
    simp [speaker_accuracy_of, hn]
  · intro q rs ts h hs
    rw [evaluate_relevance_ne_nil q rs h]
    dsimp only
    simp [type_accuracy_of, hs]
  · intro q rs ks h hs
    rw [evaluate_relevance_ne_nil q rs h]
    dsimp only
    simp only [keyword_relevance_of, hs]
    have he : (fun r : Chunk => ks.any fun k => containsCI r.text k)
        = fun r : Chunk => decide (∃ k ∈ ks, containsCI r.text k = true) :=
      funext fun r => any_eq_decide ks fun k => containsCI r.text k
    rw [he]
  · intro q rs sp h hs
    rw [evaluate_relevance_ne_nil q rs h]
    dsimp only
    simp only [speaker_accuracy_of, hs]
    have he : (fun r : Chunk =>
        match r.speaker with
        | some s => sp.contains s
        | none => false)
        = fun r : Chunk => decide (∃ s, r.speaker = some s ∧ sp.contains s = true) :=
      funext fun r => speaker_match_eq sp r
    rw [he]

/-- Witness for C5: concrete instantiations — empty results give all zeros;
on two results with a declared keyword list the keyword sub-score is the
match fraction; an undeclared speaker set scores 1.0. -/
theorem evaluate_relevance_spec_witness :
    evaluate_relevance specKeyword [] =
      { type_accuracy := 0, keyword_relevance := 0, speaker_accuracy := 0,
        overall_relevance := 0 }
    ∧ (evaluate_relevance specKeyword keywordChunks).keyword_relevance
        = ((keywordChunks.countP fun r =>
            decide (∃ k ∈ ["priority"], containsCI r.text k = true) : ℕ) : ℚ)
          / keywordChunks.length
    ∧ (evaluate_relevance specKeyword keywordChunks).speaker_accuracy = 1 :=
  ⟨evaluate_relevance_spec.1 specKeyword,
   evaluate_relevance_spec.2.2.2.2.2.2.1 specKeyword keywordChunks ["priority"]
     (by simp [keywordChunks]) rfl,
   evaluate_relevance_spec.2.2.2.2.1 specKeyword keywordChunks
     (by simp [keywordChunks]) rfl⟩

/-- C6 (amended): with fewer than 2 results both ranking scores are 1.0;
otherwise score_monotonicity is binary and equals 1.0 exactly when every
adjacent pair of scores is non-increasing, and score_distribution equals
min((max − min)/max, 1.0) when the maximum score is positive and 0.0
otherwise — in particular 0.0 when the maximum is 0, but also 0.0 (not the
formula's value) when the maximum is negative; see the counterexample.
`pyMax`/`pyMin` are the true extrema: attained, and bounding every score. -/
theorem evaluate_ranking_spec :
    (∀ rs : List Chunk, rs.length < 2 →
        evaluate_ranking_quality rs = { score_monotonicity := 1, score_distribution := 1 })
    ∧ (∀ rs : List Chunk, 2 ≤ rs.length →
        ((evaluate_ranking_quality rs).score_monotonicity = 1
            ∨ (evaluate_ranking_quality rs).score_monotonicity = 0)
        ∧ ((evaluate_ranking_quality rs).score_monotonicity = 1 ↔
            ∀ i (hi : i + 1 < (rs.map Chunk.score).length),
              (rs.map Chunk.score).get ⟨i + 1, hi⟩
                ≤ (rs.map Chunk.score).get ⟨i, Nat.lt_of_succ_lt hi⟩)
        ∧ (∀ x ∈ rs.map Chunk.score,
            pyMin (rs.map Chunk.score) ≤ x ∧ x ≤ pyMax (rs.map Chunk.score))
        ∧ pyMax (rs.map Chunk.score) ∈ rs.map Chunk.score
        ∧ pyMin (rs.map Chunk.score) ∈ rs.map Chunk.score
        ∧ (0 < pyMax (rs.map Chunk.score) →
            (evaluate_ranking_quality rs).score_distribution
              = min ((pyMax (rs.map Chunk.score) - pyMin (rs.map Chunk.score))
                  / pyMax (rs.map Chunk.score)) 1)
        ∧ (pyMax (rs.map Chunk.score) ≤ 0 →
            (evaluate_ranking_quality rs).score_distribution = 0)) := by
  constructor
  · intro rs h
    unfold evaluate_ranking_quality
    rw [if_pos h]
  · intro rs h2
    have hne : ¬ rs.length < 2 := by omega
    have hmono : (evaluate_ranking_quality rs).score_monotonicity
        = if ((rs.map Chunk.score).zip (rs.map Chunk.score).tail).all
            (fun p => decide (p.2 ≤ p.1))
          then (1 : ℚ) else 0 := by
      unfold evaluate_ranking_quality
      rw [if_neg hne]
    have hdist : (evaluate_ranking_quality rs).score_distribution
        = if 0 < pyMax (rs.map Chunk.score)
          then min ((pyMax (rs.map Chunk.score) - pyMin (rs.map Chunk.score))
              / pyMax (rs.map Chunk.score)) 1
          else 0 := by
      unfold evaluate_ranking_quality
      rw [if_neg hne]
    have hsne : rs.map Chunk.score ≠ [] := by
      intro hnil
      rw [List.map_eq_nil_iff] at hnil
      rw [hnil] at h2
      simp at h2
    refine ⟨?_, ?_, ?_, pyMax_mem _ hsne, pyMin_mem _ hsne, ?_, ?_⟩
    · rw [hmono]
      by_cases hb : ((rs.map Chunk.score).zip (rs.map Chunk.score).tail).all
          (fun p => decide (p.2 ≤ p.1)) = true
      · exact Or.inl (by rw [if_pos hb])
      · exact Or.inr (by rw [if_neg hb])
    · rw [hmono]
      by_cases hb : ((rs.map Chunk.score).zip (rs.map Chunk.score).tail).all
          (fun p => decide (p.2 ≤ p.1)) = true
      · rw [if_pos hb]
        constructor
        · intro _
          exact (adj_all_iff (rs.map Chunk.score)).mp hb
        · intro _
          rfl
      · rw [if_neg hb]
        constructor
        · intro h01
          exact absurd h01 (by norm_num)
        · intro hP
          exact absurd ((adj_all_iff (rs.map Chunk.score)).mpr hP) hb
    · intro x hx
      exact ⟨pyMin_le _ x hx, le_pyMax _ x hx⟩
    · intro hpos
      rw [hdist, if_pos hpos]
    · intro hle
      rw [hdist, if_neg (not_lt.mpr hle)]

/-- Witness for C6: two positive, descending scores — the monotonicity
score is binary, and the distribution equals the clamped spread formula. -/
theorem evaluate_ranking_spec_witness :
    ((evaluate_ranking_quality sampleRanked).score_monotonicity = 1
        ∨ (evaluate_ranking_quality sampleRanked).score_monotonicity = 0)
    ∧ (evaluate_ranking_quality sampleRanked).score_distribution
        = min ((pyMax (sampleRanked.map Chunk.score) - pyMin (sampleRanked.map Chunk.score))
            / pyMax (sampleRanked.map Chunk.score)) 1 := by
  have T := evaluate_ranking_spec.2 sampleRanked (by norm_num [sampleRanked])
  refine ⟨T.1, T.2.2.2.2.2.1 ?_⟩
  norm_num [sampleRanked, pyMax]

/-- Counterexample for C6: on two correctly-ordered results with negative
scores (−1, −2), the code returns score_distribution 0.0 (the guard is
`max > 0`), while the claim's formula min((max − min)/max, 1.0) evaluates
to −1 and its "0.0 when the maximum score is 0" clause does not apply
(the maximum is −1, not 0). -/
theorem evaluate_ranking_negative_scores_cex :
    (evaluate_ranking_quality negPair).score_distribution = 0
    ∧ min ((pyMax (negPair.map Chunk.score) - pyMin (negPair.map Chunk.score))
        / pyMax (negPair.map Chunk.score)) 1 = -1
    ∧ pyMax (negPair.map Chunk.score) ≠ 0 := by
  refine ⟨rfl, ?_, ?_⟩
  · norm_num [negPair, pyMax, pyMin]
  · norm_num [negPair, pyMax]

/-- C7 (amended): overall_relevance lies in [0, 1] for all inputs, including
degenerate ones; overall_quality lies in [0, 1] for all scored answers whose
confidence lies in [0, 1] — which the synthesizer guarantees whenever
retrieval scores are nonnegative, but not for negative similarity scores,
where overall_quality drops below 0 (see the counterexample). -/
theorem overall_scores_bounded :
    (∀ q rs, 0 ≤ (evaluate_relevance q rs).overall_relevance
        ∧ (evaluate_relevance q rs).overall_relevance ≤ 1)
    ∧ (∀ q rag g, 0 ≤ rag.generated_answer.confidence →
        rag.generated_answer.confidence ≤ 1 →
        evaluate_generation_quality q rag = Except.ok g →
        0 ≤ g.overall_quality ∧ g.overall_quality ≤ 1) := by
  constructor
  · intro q rs
    rcases eq_or_ne rs [] with rfl | h
    · norm_num [evaluate_relevance]
    · rw [evaluate_relevance_ne_nil q rs h]
      dsimp only
      obtain ⟨t0, t1⟩ := type_accuracy_of_mem q rs h
      obtain ⟨k0, k1⟩ := keyword_relevance_of_mem q rs h
      obtain ⟨s0, s1⟩ := speaker_accuracy_of_mem q rs h
      constructor <;> nlinarith
  · intro q rag g h0 h1 hok
    obtain ⟨l0, l1⟩ := length_score_mem rag.generated_answer.answer.length
    have su0 : 0 ≤ min ((rag.generated_answer.sources_used : ℚ) / 3) 1 :=
      le_min (by positivity) zero_le_one
    have su1 : min ((rag.generated_answer.sources_used : ℚ) / 3) 1 ≤ 1 :=
      min_le_right _ _
    simp only [evaluate_generation_quality] at hok
    rcases hk : q.expected_keywords with _ | ks
    · rw [hk] at hok
      simp only [Except.ok.injEq] at hok
      rw [← hok]
      dsimp only
      constructor <;> nlinarith
    · rw [hk] at hok
      dsimp only at hok
      by_cases hz : ks.length = 0
      · rw [if_pos hz] at hok
        simp at hok
      · rw [if_neg hz] at hok
        simp only [Except.ok.injEq] at hok
        have hksne : ks ≠ [] := by
          intro hnil
          rw [hnil] at hz
          simp at hz
        obtain ⟨c0, c1⟩ := count_div_mem
          (fun k => containsCI rag.generated_answer.answer k) ks hksne
        rw [← hok]
        dsimp only
        constructor <;> nlinarith

/-- Witness for C7: degenerate inputs — empty results for relevance, and a
scored empty answer with confidence 0 for generation quality. -/
theorem overall_scores_bounded_witness :
    (0 ≤ (evaluate_relevance specNoExpect []).overall_relevance
      ∧ (evaluate_relevance specNoExpect []).overall_relevance ≤ 1)
    ∧ (0 ≤ emptyMetrics.overall_quality ∧ emptyMetrics.overall_quality ≤ 1) :=
  ⟨overall_scores_bounded.1 specNoExpect [],
   overall_scores_bounded.2 specNoExpect emptyRag emptyMetrics
     (by norm_num [emptyRag, emptyGA]) (by norm_num [emptyRag, emptyGA]) eval_emptyRag⟩

/-- Counterexample for C7: feeding the scorer an answer the synthesizer
itself produced from a negative-similarity retrieval (confidence −6/5)
yields overall_quality −29/75 < 0 — outside [0, 1], so the claim's "for all
inputs" fails on system-produced inputs. -/
theorem overall_quality_negative_cex :
    generate_answer (Except.ok "") "q" negSingle = negGA
    ∧ (evaluate_generation_quality specNoExpect
        { query := "q", generated_answer := negGA, retrieved_chunks := negSingle,
          total_chunks_found := 1 }).map GenerationMetrics.overall_quality
      = Except.ok (-(29/75))
    ∧ (-(29/75) : ℚ) < 0 := by
  refine ⟨?_, ?_, by norm_num⟩
  · norm_num [generate_answer, negSingle, negGA, min_def]
  · norm_num [evaluate_generation_quality, specNoExpect, negGA, length_score,
      Except.map, min_def, max_def]

/-- C9: the Generation Scorer's keyword_coverage is 0.0 when no
expected_keywords expectation is declared — unlike the Relevance Scorer,
whose keyword sub-score is 1.0 when unconstrained — and otherwise (for a
declared, non-empty keyword list) equals the fraction of expected keywords
appearing as case-insensitive substrings of the answer text. -/
theorem keyword_coverage_spec :
    (∀ q rag g, q.expected_keywords = none →
        evaluate_generation_quality q rag = Except.ok g → g.keyword_coverage = 0)
    ∧ (∀ q rag g ks, q.expected_keywords = some ks → ks ≠ [] →
        evaluate_generation_quality q rag = Except.ok g →
        g.keyword_coverage
          = ((ks.countP fun k => containsCI rag.generated_answer.answer k : ℕ) : ℚ)
            / ks.length)
    ∧ (∀ q rs, rs ≠ [] → q.expected_keywords = none →
        (evaluate_relevance q rs).keyword_relevance = 1) := by
  refine ⟨?_, ?_, ?_⟩
  · intro q rag g hk hok
    simp only [evaluate_generation_quality] at hok
    rw [hk] at hok
    simp only [Except.ok.injEq] at hok
    rw [← hok]
  · intro q rag g ks hk hksne hok
    simp only [evaluate_generation_quality] at hok
    rw [hk] at hok
    dsimp only at hok
    have hz : ¬ ks.length = 0 := by
      intro h0
      exact hksne (List.length_eq_zero.mp h0)
    rw [if_neg hz] at hok
    simp only [Except.ok.injEq] at hok
    rw [← hok]
  · intro q rs h hn
    rw [evaluate_relevance_ne_nil q rs h]
    dsimp only
    simp [keyword_relevance_of, hn]

/-- Witness for C9: an undeclared keyword set scores coverage 0.0 on the
degenerate answer; the declared set ["priority"] on the answer "High
Priority items" scores its match fraction; the Relevance Scorer scores 1.0
on the same undeclared case. -/
theorem keyword_coverage_spec_witness :
    emptyMetrics.keyword_coverage = 0
    ∧ ((evaluate_generation_quality specKeyword keywordRag).map
          GenerationMetrics.keyword_coverage
        = Except.ok ((((["priority"] : List String).countP
            fun k => containsCI keywordRag.generated_answer.answer k : ℕ) : ℚ)
          / (["priority"] : List String).length))
    ∧ (evaluate_relevance specNoExpect keywordChunks).keyword_relevance = 1 := by
  refine ⟨keyword_coverage_spec.1 specNoExpect emptyRag emptyMetrics rfl eval_emptyRag,
    ?_, keyword_coverage_spec.2.2 specNoExpect keywordChunks (by simp [keywordChunks]) rfl⟩
  have hok : ∃ g, evaluate_generation_quality specKeyword keywordRag = Except.ok g := by
    simp only [evaluate_generation_quality, specKeyword, keywordRag]
    exact ⟨_, rfl⟩
  obtain ⟨g, hg⟩ := hok
  rw [hg, Except.map]
  rw [keyword_coverage_spec.2.1 specKeyword keywordRag g ["priority"] rfl
    (by simp) hg]
